import Mathlib

/-!
A shallow embedding of the LM Studio chat client (electron-vite-test).

The repository contains four near-duplicate screen variants. Two behavioral
variants are modelled here:

* the "basic" variant (`src/src/App.tsx`): endpoint built by plain
  concatenation, error transcript entries without configuration values, and
  an alert-based `testConnection` that never touches the transcript;
* the "v2" variant (the settings-enabled screens in `src/unnamed/part_000`):
  endpoint construction guarded against a duplicated `/`, error entries that
  embed the configured values, a transcript-based `testConnection`, and the
  `saveConfig` / `resetConfig` operations.

The privileged relay (`ipcMain.handle('call-lm-studio-api')` in
`src/unnamed/part_001`) is modelled over an abstract HTTP response.

Conventions of the embedding:
* `Date.now()` readings are passed in explicitly as `Nat` parameters
  (epoch milliseconds); a message id `Date.now().toString()` is modelled by
  the numeric value itself (decimal rendering of a `Nat` is injective).
* JSON values are a plain inductive; JavaScript truthiness is `truthy`.
* The fixed sampling temperature `0.7` is modelled by its exact decimal
  literal text (no floating point enters the model).
* Async operations are modelled as pure functions from the pre-state, the
  clock readings and the relay outcome to the post-state together with the
  request descriptor dispatched across the bridge (`none` when no dispatch
  happened).
-/

namespace LMStudioChat

/-- JavaScript `String.prototype.trim`: drops leading and trailing
whitespace. Modelled directly over the character list (the source's inputs
only involve ASCII whitespace). -/
def jsTrim (s : String) : String :=
  String.mk
    (((s.data.dropWhile Char.isWhitespace).reverse.dropWhile
        Char.isWhitespace).reverse)

/-- `role: 'user' | 'assistant'` from the `Message` interface. -/
inductive Role where
  | user
  | assistant
deriving DecidableEq

/-- The wire rendering of a role. -/
def roleString : Role → String
  | .user => "user"
  | .assistant => "assistant"

/-- One transcript entry (the `Message` interface). `id` is the numeric value
of `Date.now().toString()`; `timestamp` is the `new Date()` creation time in
epoch milliseconds. -/
structure Message where
  id : Nat
  role : Role
  content : String
  timestamp : Nat
deriving DecidableEq

/-- Connection parameters (the `LMStudioConfig` interface). -/
structure LMStudioConfig where
  baseUrl : String
  model : String
deriving DecidableEq

/-- `DEFAULT_CONFIG` from the source. -/
def DEFAULT_CONFIG : LMStudioConfig :=
  { baseUrl := "http://localhost:1234", model := "local-model" }

/-- One `{role, content}` pair of the request body (`conversationHistory`
elements: timestamps and ids are stripped). -/
structure ChatMsg where
  role : String
  content : String
deriving DecidableEq

/-- `msg => ({ role: msg.role, content: msg.content })`. -/
def toChatMsg (m : Message) : ChatMsg :=
  { role := roleString m.role, content := m.content }

/-- The JSON body of the chat request. `temperature` holds the exact decimal
literal text of the JSON number (`"0.7"` for the fixed 0.7). -/
structure RequestBody where
  model : String
  messages : List ChatMsg
  temperature : String
  max_tokens : Nat
  stream : Bool
deriving DecidableEq

/-- The request descriptor crossing the bridge
(`{endpoint, method, body?}` of `callLMStudioAPI`). -/
structure RequestDescriptor where
  endpoint : String
  method : String
  body : Option RequestBody
deriving DecidableEq

/-- Decoded JSON values. Numbers are modelled as integers (the source only
ever distinguishes zero from nonzero). -/
inductive Json where
  | null
  | bool (b : Bool)
  | num (n : Int)
  | str (s : String)
  | arr (elems : List Json)
  | obj (fields : List (String × Json))

/-- JavaScript truthiness of a decoded JSON value (`NaN` is not
representable in the integer number model). -/
def truthy : Json → Bool
  | .null => false
  | .bool b => b
  | .num n => n != 0
  | .str s => s != ""
  | .arr _ => true
  | .obj _ => true

/-- JavaScript property access `v.k` on a decoded JSON value: `none` models
`undefined` (property access on a primitive yields `undefined`; callers are
responsible for the throwing cases on `null`/`undefined` receivers). -/
def jsField (j : Json) (k : String) : Option Json :=
  match j with
  | .obj fields => fields.lookup k
  | _ => none

/-- JavaScript indexing `v[0]` on a decoded JSON value. -/
def jsIndex0 : Json → Option Json
  | .arr elems => elems.head?
  | .obj fields => fields.lookup "0"
  | .str s =>
    match s.data with
    | [] => none
    | c :: _ => some (.str (String.mk [c]))
  | _ => none

/-- Optional chaining `o?.k`: short-circuits on `undefined` and `null`. -/
def optChain (o : Option Json) (k : String) : Option Json :=
  match o with
  | none => none
  | some .null => none
  | some v => jsField v k

/-- String coercion of a decoded JSON value when it is stored into the
`content` field. Strings pass through verbatim; the other cases model the
JavaScript coercion coarsely (they are unreachable in the properties below,
which only exercise string contents). -/
def jsonDisplay : Json → String
  | .null => "null"
  | .bool true => "true"
  | .bool false => "false"
  | .num n => toString n
  | .str s => s
  | .arr _ => ""
  | .obj _ => "[object Object]"

/-- `response.data.choices[0]?.message?.content`: evaluating `data.choices`
on an object without the property gives `undefined`, and indexing
`undefined[0]` (or `null[0]`) throws a `TypeError`, modelled as `.error`
with the runtime message. Otherwise the optional chain yields the content
value or `undefined` (`.ok none`). -/
def choicesContentResult (data : Json) : Except String (Option Json) :=
  match jsField data "choices" with
  | none => .error "Cannot read properties of undefined (reading '0')"
  | some .null => .error "Cannot read properties of null (reading '0')"
  | some choices =>
    .ok (optChain (optChain (jsIndex0 choices) "message") "content")

/-- `response.data.choices[0]?.message?.content || 'エラー: レスポンスが空です'`:
a missing or falsy content value degrades to the fixed placeholder. -/
def contentOrPlaceholder (o : Option Json) : String :=
  match o with
  | some j => if truthy j then jsonDisplay j else "エラー: レスポンスが空です"
  | none => "エラー: レスポンスが空です"

/-- The relay's success value `{ type: 'json', data }`. -/
structure RelayResponse where
  rtype : String
  data : Json

/-- An error raised by the relay: the `HTTP error! status: ...` throw, or
any other JavaScript error (such as a JSON parse failure) carrying its
message. -/
inductive RelayError where
  | http (status : Nat)
  | jsError (msg : String)

/-- `error.message` of a relay error as observed by the renderer's catch. -/
def errorMessage : RelayError → String
  | .http status => "HTTP error! status: " ++ toString status
  | .jsError msg => msg

/-- An HTTP response as seen by the relay handler: `ok`/`status` of the
fetch `Response`, and `jsonBody` the outcome of `response.json()` (parse
error message, or the decoded value). -/
structure HttpResponse where
  ok : Bool
  status : Nat
  jsonBody : Except String Json

/-- The relay handler `ipcMain.handle('call-lm-studio-api', ...)`: throws on
a non-ok status (carrying the numeric status), propagates a JSON parse
failure, and otherwise returns the decoded body tagged `'json'`. -/
def callLMStudioAPI (resp : HttpResponse) : Except RelayError RelayResponse :=
  if !resp.ok then
    .error (.http resp.status)
  else
    match resp.jsonBody with
    | .error msg => .error (.jsError msg)
    | .ok data => .ok { rtype := "json", data := data }

/-- The renderer's state: the transcript, the input buffer, the busy flag,
the active configuration, the staged configuration of the settings panel,
and the persisted `localStorage` copy (`none` when the key is absent). -/
structure AppState where
  messages : List Message
  input : String
  isLoading : Bool
  config : LMStudioConfig
  tempConfig : LMStudioConfig
  stored : Option LMStudioConfig
deriving DecidableEq

/-- The initial state when no configuration was persisted. -/
def initialState : AppState :=
  { messages := [], input := "", isLoading := false,
    config := DEFAULT_CONFIG, tempConfig := DEFAULT_CONFIG, stored := none }

/-- Endpoint construction of the basic variant (`src/src/App.tsx`):
plain concatenation with no guard. -/
def chatEndpointBasic (baseUrl : String) : String :=
  baseUrl ++ "/v1/chat/completions"

/-- Models-listing endpoint of the basic variant. -/
def modelsEndpointBasic (baseUrl : String) : String :=
  baseUrl ++ "/v1/models"

/-- `baseUrl.endsWith('/')`: with a one-character suffix this is exactly
"the last character is `/`". -/
def endsWithSlash (s : String) : Bool :=
  s.data.getLast? == some '/'

/-- Guarded endpoint construction of the v2 variants. -/
def chatEndpointV2 (baseUrl : String) : String :=
  if endsWithSlash baseUrl then baseUrl ++ "v1/chat/completions"
  else baseUrl ++ "/v1/chat/completions"

/-- Guarded models-listing endpoint of the v2 variants. -/
def modelsEndpointV2 (baseUrl : String) : String :=
  if endsWithSlash baseUrl then baseUrl ++ "v1/models"
  else baseUrl ++ "/v1/models"

/-- Error transcript content of the basic variant's `sendMessage` catch. -/
def errContentBasic (msg : String) : String :=
  "エラーが発生しました: " ++ msg

/-- Error transcript content of the v2 variants' `sendMessage` catch: embeds
the active configuration values. -/
def errContentV2 (cfg : LMStudioConfig) (msg : String) : String :=
  "エラーが発生しました: " ++ msg ++
    "\n\n設定を確認してください：\n・API URL: " ++ cfg.baseUrl ++
    "\n・モデル名: " ++ cfg.model

end LMStudioChat

namespace LMStudioChat

/-- `sendMessage`, common to all variants up to the endpoint construction
(`mkEndpoint`) and the catch-branch content (`mkErr`). Arguments: pre-state,
the `Date.now()` reading at dispatch, the reading at resolution, and the
relay outcome. Returns the resolved post-state and the dispatched
descriptor (`none` when the guard dropped the call). -/
def sendMessageCore (mkEndpoint : String → String)
    (mkErr : LMStudioConfig → String → String)
    (s : AppState) (nowSend nowResolve : Nat)
    (relay : Except RelayError RelayResponse) :
    AppState × Option RequestDescriptor :=
  if jsTrim s.input = "" ∨ s.isLoading then (s, none)
  else
    let userMessage : Message :=
      { id := nowSend, role := .user, content := jsTrim s.input,
        timestamp := nowSend }
    let messages1 := s.messages ++ [userMessage]
    let conversationHistory := messages1.map toChatMsg
    let descriptor : RequestDescriptor :=
      { endpoint := mkEndpoint s.config.baseUrl, method := "POST",
        body := some { model := s.config.model,
                       messages := conversationHistory,
                       temperature := "0.7", max_tokens := 1000,
                       stream := false } }
    let finalMessages : List Message :=
      match relay with
      | .ok resp =>
        if resp.rtype = "json" ∧ truthy resp.data then
          match choicesContentResult resp.data with
          | .ok content =>
            messages1 ++
              [{ id := nowResolve + 1, role := .assistant,
                 content := contentOrPlaceholder content,
                 timestamp := nowResolve }]
          | .error msg =>
            messages1 ++
              [{ id := nowResolve + 1, role := .assistant,
                 content := mkErr s.config msg, timestamp := nowResolve }]
        else
          messages1 ++
            [{ id := nowResolve + 1, role := .assistant,
               content := mkErr s.config "無効なレスポンス形式",
               timestamp := nowResolve }]
      | .error e =>
        messages1 ++
          [{ id := nowResolve + 1, role := .assistant,
             content := mkErr s.config (errorMessage e),
             timestamp := nowResolve }]
    ({ s with messages := finalMessages, input := "", isLoading := false },
     some descriptor)

/-- `sendMessage` of the basic variant (`src/src/App.tsx`). -/
def sendMessageBasic : AppState → Nat → Nat →
    Except RelayError RelayResponse → AppState × Option RequestDescriptor :=
  sendMessageCore chatEndpointBasic (fun _ msg => errContentBasic msg)

/-- `sendMessage` of the v2 variants (`src/unnamed/part_000`). -/
def sendMessageV2 : AppState → Nat → Nat →
    Except RelayError RelayResponse → AppState × Option RequestDescriptor :=
  sendMessageCore chatEndpointV2 errContentV2

/-- `testConnection` of the basic variant: no busy-flag guard, always
dispatches a GET to the models endpoint; the outcome is shown through an
`alert` and the transcript is never touched. -/
def testConnectionBasic (s : AppState) (_now : Nat)
    (_relay : Except RelayError RelayResponse) :
    AppState × Option RequestDescriptor :=
  ({ s with isLoading := false },
   some { endpoint := modelsEndpointBasic s.config.baseUrl, method := "GET",
          body := none })

/-- Success transcript content of the v2 `testConnection`. -/
def connSuccessContent (baseUrl : String) : String :=
  "接続成功！\n\nAPI URL: " ++ baseUrl

/-- Error transcript content of the v2 `testConnection`. -/
def connErrContent (baseUrl msg : String) : String :=
  "接続エラー\n\nAPI URL: " ++ baseUrl ++ "\nエラー内容: " ++ msg ++
    "\n\n設定を確認してください。"

/-- `testConnection` of the v2 variants: no busy-flag guard, always
dispatches a GET to the guarded models endpoint and appends one assistant
entry reporting success or failure. -/
def testConnectionV2 (s : AppState) (now : Nat)
    (relay : Except RelayError RelayResponse) :
    AppState × Option RequestDescriptor :=
  let msg : Message :=
    match relay with
    | .ok resp =>
      if resp.rtype = "json" ∧ truthy resp.data then
        { id := now, role := .assistant,
          content := connSuccessContent s.config.baseUrl, timestamp := now }
      else
        { id := now, role := .assistant,
          content := connErrContent s.config.baseUrl "無効なレスポンス",
          timestamp := now }
    | .error e =>
      { id := now, role := .assistant,
        content := connErrContent s.config.baseUrl (errorMessage e),
        timestamp := now }
  ({ s with messages := s.messages ++ [msg], isLoading := false },
   some { endpoint := modelsEndpointV2 s.config.baseUrl, method := "GET",
          body := none })

/-- `x.trim() || default`: a blank-after-trim field falls back to its
default. -/
def orDefault (v d : String) : String :=
  if v = "" then d else v

/-- `saveConfig` of the v2 variants: trims the staged fields, substitutes
defaults for blank ones, makes the result active, persists it, and appends
a confirmation entry (the successful-persistence path is modelled; a
`localStorage` failure only raises an alert). -/
def saveConfig (s : AppState) (now : Nat) : AppState :=
  let finalConfig : LMStudioConfig :=
    { baseUrl := orDefault (jsTrim s.tempConfig.baseUrl) DEFAULT_CONFIG.baseUrl,
      model := orDefault (jsTrim s.tempConfig.model) DEFAULT_CONFIG.model }
  let successMessage : Message :=
    { id := now, role := .assistant,
      content := "設定を保存しました\n・API URL: " ++ finalConfig.baseUrl ++
        "\n・モデル名: " ++ finalConfig.model,
      timestamp := now }
  { s with config := finalConfig, stored := some finalConfig,
           messages := s.messages ++ [successMessage] }

/-- `resetConfig` of the v2 variants: restores the defaults, removes the
persisted copy, and appends a confirmation entry. -/
def resetConfig (s : AppState) (now : Nat) : AppState :=
  let resetMessage : Message :=
    { id := now, role := .assistant,
      content := "設定をデフォルトに戻しました\n・API URL: " ++
        DEFAULT_CONFIG.baseUrl ++ "\n・モデル名: " ++ DEFAULT_CONFIG.model,
      timestamp := now }
  { s with config := DEFAULT_CONFIG, tempConfig := DEFAULT_CONFIG,
           stored := none, messages := s.messages ++ [resetMessage] }

/-- `clearChat`: empties the transcript. -/
def clearChat (s : AppState) : AppState :=
  { s with messages := [] }

/-- One user-initiated operation of the v2 screen, with its clock readings
and (for network operations) the relay outcome. `typeInput` models editing
the input buffer. -/
inductive Op where
  | typeInput (text : String)
  | send (nowSend nowResolve : Nat) (relay : Except RelayError RelayResponse)
  | test (now : Nat) (relay : Except RelayError RelayResponse)
  | save (now : Nat)
  | reset (now : Nat)
  | clear

/-- Apply one operation to the state (dispatched descriptors dropped). -/
def applyOp (s : AppState) : Op → AppState
  | .typeInput text => { s with input := text }
  | .send a b relay => (sendMessageV2 s a b relay).1
  | .test n relay => (testConnectionV2 s n relay).1
  | .save n => saveConfig s n
  | .reset n => resetConfig s n
  | .clear => clearChat s

/-- Run a sequence of operations. -/
def runOps (s : AppState) : List Op → AppState
  | [] => s
  | op :: rest => runOps (applyOp s op) rest

/-- The `Date.now()` readings an operation consumes, in evaluation order. -/
def opClocks : Op → List Nat
  | .typeInput _ => []
  | .send a b _ => [a, b]
  | .test n _ => [n]
  | .save n => [n]
  | .reset n => [n]
  | .clear => []

/-- All clock readings of a trace, in order. -/
def traceClocks : List Op → List Nat
  | [] => []
  | op :: rest => opClocks op ++ traceClocks rest

/-- The transcript's ids, in transcript order. -/
def msgIds (s : AppState) : List Nat :=
  s.messages.map (·.id)

/-- `sub` occurs contiguously inside `s`. -/
def containsStr (s sub : String) : Prop :=
  ∃ pre post, s = pre ++ sub ++ post

end LMStudioChat

namespace LMStudioChat

/-! Generic facts about string concatenation, used by the endpoint and
transcript-content theorems. -/

theorem strData_append (a b : String) : (a ++ b).data = a.data ++ b.data := by
  cases a
  cases b
  rfl

theorem strAppend_assoc (a b c : String) : a ++ b ++ c = a ++ (b ++ c) := by
  cases a with
  | mk la =>
    cases b with
    | mk lb =>
      cases c with
      | mk lc =>
        show String.mk (la ++ lb ++ lc) = String.mk (la ++ (lb ++ lc))
        rw [List.append_assoc]

theorem endsWithSlash_concat (b : String) :
    endsWithSlash (b ++ ("/" : String)) = true := by
  have hd : (b ++ ("/" : String)).data = b.data ++ ['/'] := strData_append b "/"
  simp [endsWithSlash, hd]

theorem strEmpty_append (s : String) : "" ++ s = s := by
  cases s
  rfl

theorem strAppend_empty (s : String) : s ++ "" = s := by
  cases s with
  | mk l =>
    show String.mk (l ++ []) = String.mk l
    rw [List.append_nil]

theorem containsStr_appendLeft (x y sub : String) (h : containsStr x sub) :
    containsStr (x ++ y) sub := by
  obtain ⟨pre, post, hx⟩ := h
  exact ⟨pre, post ++ y, by rw [hx, strAppend_assoc (pre ++ sub) post y]⟩

theorem containsStr_self_append (sub y : String) : containsStr (sub ++ y) sub :=
  ⟨"", y, by rw [strEmpty_append]⟩

theorem containsStr_append_self (x sub : String) : containsStr (x ++ sub) sub :=
  ⟨x, "", by rw [strAppend_empty]⟩

instance containsStr.decidable (s sub : String) : Decidable (containsStr s sub) := by
  refine decidable_of_iff (sub.data <:+: s.data) ?_
  constructor
  · rintro ⟨pre, post, h⟩
    refine ⟨String.mk pre, String.mk post, ?_⟩
    cases s with
    | mk l =>
      cases sub with
      | mk lsub =>
        show String.mk l = String.mk (pre ++ lsub ++ post)
        simp only [List.append_assoc] at h ⊢
        rw [h]
  · rintro ⟨pre, post, h⟩
    refine ⟨pre.data, post.data, ?_⟩
    rw [h]
    simp [strData_append, List.append_assoc]

end LMStudioChat

namespace LMStudioChat

/-- A clean starting state with a pending input, shared by several concrete
witnesses below. -/
def sampleState : AppState :=
  { initialState with input := "hello" }

/-- A state whose busy flag is set. -/
def busyState : AppState :=
  { initialState with input := "hello", isLoading := true }

/-- C1 (amended): while the busy flag is true, `send` is a no-op in every
variant — the state (transcript included) is unchanged and no request
descriptor is dispatched. `testConnection`, by contrast, is not guarded by
the busy flag (see the counterexample): only its UI button is disabled. -/
theorem C1_send_noop_when_busy (mkEndpoint : String → String)
    (mkErr : LMStudioConfig → String → String) (s : AppState)
    (nowSend nowResolve : Nat) (relay : Except RelayError RelayResponse)
    (h : s.isLoading = true) :
    sendMessageCore mkEndpoint mkErr s nowSend nowResolve relay = (s, none) := by
  simp [sendMessageCore, h]

/-- C1 witness: the no-op theorem applied to a concrete busy state, for both
send variants. -/
theorem C1_send_noop_when_busy_witness :
    sendMessageBasic busyState 100 200 (.error (.http 500)) = (busyState, none) ∧
    sendMessageV2 busyState 100 200 (.error (.http 500)) = (busyState, none) := by
  unfold sendMessageBasic sendMessageV2
  exact ⟨C1_send_noop_when_busy _ _ _ _ _ _ rfl,
         C1_send_noop_when_busy _ _ _ _ _ _ rfl⟩

/-- C1 counterexample: invoking `testConnection` while busy is not a no-op —
it dispatches a request descriptor in both variants, and in the settings
variants it also appends a transcript entry. -/
theorem C1_counterexample :
    busyState.isLoading = true ∧
    (testConnectionV2 busyState 300 (.error (.http 500))).2 ≠ none ∧
    (testConnectionV2 busyState 300 (.error (.http 500))).1.messages ≠
      busyState.messages ∧
    (testConnectionBasic busyState 300 (.error (.http 500))).2 ≠ none := by
  decide

/-- C3: the relay's `execute` fails exactly when the HTTP response has a
non-success status (the error then carries the numeric status) or the
successful body fails to parse as JSON; otherwise it returns the decoded
body tagged as JSON-kind. -/
theorem C3_relay_error_iff (resp : HttpResponse) :
    ((∃ e, callLMStudioAPI resp = .error e) ↔
      (resp.ok = false ∨ ∃ msg, resp.jsonBody = .error msg)) ∧
    (resp.ok = false → callLMStudioAPI resp = .error (.http resp.status)) ∧
    (∀ data, resp.ok = true → resp.jsonBody = .ok data →
      callLMStudioAPI resp = .ok { rtype := "json", data := data }) := by
  obtain ⟨ok, status, body⟩ := resp
  refine ⟨?_, ?_, ?_⟩ <;> cases ok <;> cases body <;> simp [callLMStudioAPI]

/-- C3 witness: the relay theorem at concrete responses — a 404 failure and
a successful decode. -/
theorem C3_relay_error_iff_witness :
    callLMStudioAPI { ok := false, status := 404, jsonBody := .ok .null } =
      .error (.http 404) ∧
    callLMStudioAPI { ok := true, status := 200, jsonBody := .ok (.bool true) } =
      .ok { rtype := "json", data := .bool true } := by
  exact ⟨(C3_relay_error_iff _).2.1 rfl,
         (C3_relay_error_iff _).2.2 (.bool true) rfl rfl⟩

/-- C4 (amended): in the settings variants the endpoint construction guards
against a doubled path separator — a base URL with or without a trailing `/`
yields the same canonical endpoint. (The `src/src/App.tsx` variant
concatenates unconditionally; see the counterexample.) -/
theorem C4_guarded_endpoint_no_double (b : String)
    (h : endsWithSlash b = false) :
    chatEndpointV2 b = b ++ "/v1/chat/completions" ∧
    chatEndpointV2 (b ++ "/") = b ++ "/v1/chat/completions" ∧
    modelsEndpointV2 b = b ++ "/v1/models" ∧
    modelsEndpointV2 (b ++ "/") = b ++ "/v1/models" := by
  have h2 := endsWithSlash_concat b
  refine ⟨by simp [chatEndpointV2, h], ?_, by simp [modelsEndpointV2, h], ?_⟩
  · rw [chatEndpointV2, if_pos h2, strAppend_assoc]
    rfl
  · rw [modelsEndpointV2, if_pos h2, strAppend_assoc]
    rfl

/-- C4 witness: the guarded construction at the spec's two concrete base
URLs. -/
theorem C4_guarded_endpoint_no_double_witness :
    endsWithSlash "http://x" = false ∧
    chatEndpointV2 "http://x/" = "http://x/v1/chat/completions" ∧
    chatEndpointV2 "http://x" = "http://x/v1/chat/completions" := by
  have h := C4_guarded_endpoint_no_double "http://x" (by decide)
  refine ⟨by decide, ?_, h.1⟩
  have h21 := h.2.1
  rwa [show ("http://x" ++ "/" : String) = "http://x/" from rfl] at h21

/-- C4 counterexample: the `src/src/App.tsx` variant concatenates the suffix
unconditionally, so a base URL ending in `/` yields a doubled path
separator, also in the descriptor it dispatches. -/
theorem C4_counterexample :
    chatEndpointBasic "http://x/" = "http://x//v1/chat/completions" ∧
    chatEndpointBasic "http://x/" ≠ "http://x/v1/chat/completions" ∧
    (sendMessageBasic { sampleState with
        config := { baseUrl := "http://x/", model := "m" } } 1 2
        (.error (.http 500))).2 =
      some { endpoint := "http://x//v1/chat/completions", method := "POST",
             body := some { model := "m",
                            messages := [{ role := "user",
                                           content := "hello" }],
                            temperature := "0.7", max_tokens := 1000,
                            stream := false } } := by
  decide

/-- C6: `saveConfig` trims both staged fields and substitutes the
documented default for a field that is blank after trimming, before making
the result active and persisting it (the persisted copy equals the new
active configuration). -/
theorem C6_saveConfig_trims_and_defaults (s : AppState) (now : Nat) :
    (jsTrim s.tempConfig.baseUrl = "" →
      (saveConfig s now).config.baseUrl = DEFAULT_CONFIG.baseUrl) ∧
    (jsTrim s.tempConfig.baseUrl ≠ "" →
      (saveConfig s now).config.baseUrl = jsTrim s.tempConfig.baseUrl) ∧
    (jsTrim s.tempConfig.model = "" →
      (saveConfig s now).config.model = DEFAULT_CONFIG.model) ∧
    (jsTrim s.tempConfig.model ≠ "" →
      (saveConfig s now).config.model = jsTrim s.tempConfig.model) ∧
    (saveConfig s now).stored = some (saveConfig s now).config := by
  refine ⟨?_, ?_, ?_, ?_, rfl⟩ <;> intro h <;> simp [saveConfig, orDefault, h]

/-- The staged configuration of the C6 witness:
`{baseUrl: "  ", model: "gpt"}`. -/
def c6State : AppState :=
  { initialState with tempConfig := { baseUrl := "  ", model := "gpt" } }

/-- C6 witness: saving `{baseUrl: "  ", model: "gpt"}` yields the active
(and persisted) configuration `{baseUrl: "http://localhost:1234",
model: "gpt"}`. -/
theorem C6_saveConfig_trims_and_defaults_witness :
    (saveConfig c6State 100).config.baseUrl = "http://localhost:1234" ∧
    (saveConfig c6State 100).config.model = "gpt" ∧
    (saveConfig c6State 100).stored = some (saveConfig c6State 100).config := by
  have h := C6_saveConfig_trims_and_defaults c6State 100
  exact ⟨h.1 (by decide), h.2.2.2.1 (by decide), h.2.2.2.2⟩

end LMStudioChat

namespace LMStudioChat

/-- The user `Message` a firing `send` appends: trimmed input, role `user`,
id and timestamp from the dispatch-time clock reading. -/
def sentUserMsg (s : AppState) (nowSend : Nat) : Message :=
  { id := nowSend, role := .user, content := jsTrim s.input,
    timestamp := nowSend }

/-- The request descriptor a firing `send` dispatches. -/
def sentDescriptor (mkEndpoint : String → String) (s : AppState)
    (nowSend : Nat) : RequestDescriptor :=
  { endpoint := mkEndpoint s.config.baseUrl, method := "POST",
    body := some { model := s.config.model,
                   messages := (s.messages ++ [sentUserMsg s nowSend]).map
                     toChatMsg,
                   temperature := "0.7", max_tokens := 1000,
                   stream := false } }

/-- When the guard passes (non-blank trimmed input, not busy), `send`
appends the user message, dispatches the descriptor, and appends exactly
one assistant message whose content depends on the relay outcome. -/
theorem sendMessageCore_fire (mkEndpoint : String → String)
    (mkErr : LMStudioConfig → String → String) (s : AppState)
    (nowSend nowResolve : Nat) (relay : Except RelayError RelayResponse)
    (hbusy : s.isLoading = false) (hinput : jsTrim s.input ≠ "") :
    ∃ content : String,
      sendMessageCore mkEndpoint mkErr s nowSend nowResolve relay =
        ({ s with
            messages := s.messages ++
              [sentUserMsg s nowSend,
               { id := nowResolve + 1, role := .assistant,
                 content := content, timestamp := nowResolve }],
            input := "", isLoading := false },
         some (sentDescriptor mkEndpoint s nowSend)) := by
  cases relay with
  | error e =>
    refine ⟨mkErr s.config (errorMessage e), ?_⟩
    simp only [sendMessageCore]
    rw [if_neg (by simp [hbusy, hinput])]
    simp [sentUserMsg, sentDescriptor]
  | ok resp =>
    by_cases hj : resp.rtype = "json" ∧ truthy resp.data
    · obtain ⟨hj1, hj2⟩ := hj
      cases hc : choicesContentResult resp.data with
      | ok content =>
        refine ⟨contentOrPlaceholder content, ?_⟩
        simp only [sendMessageCore]
        rw [if_neg (by simp [hbusy, hinput])]
        simp [hj1, hj2, hc, sentUserMsg, sentDescriptor]
      | error msg =>
        refine ⟨mkErr s.config msg, ?_⟩
        simp only [sendMessageCore]
        rw [if_neg (by simp [hbusy, hinput])]
        simp [hj1, hj2, hc, sentUserMsg, sentDescriptor]
    · refine ⟨mkErr s.config "無効なレスポンス形式", ?_⟩
      simp only [sendMessageCore]
      rw [if_neg (by simp [hbusy, hinput])]
      simp [hj, sentUserMsg, sentDescriptor]

/-- C2: for non-blank input with the busy flag clear, `send` appends
exactly one user message (carrying the trimmed text) before dispatching —
the dispatched payload already contains it — and exactly one assistant
message after the relay resolves or rejects, whatever the outcome; since
the final transcript is the old one plus `[user, assistant]`, a clean
transcript yields exactly that pair, with no assistant entry lacking its
preceding user entry. -/
theorem C2_send_appends_user_then_assistant (mkEndpoint : String → String)
    (mkErr : LMStudioConfig → String → String) (s : AppState)
    (nowSend nowResolve : Nat) (relay : Except RelayError RelayResponse)
    (hbusy : s.isLoading = false) (hinput : jsTrim s.input ≠ "") :
    ∃ assistant : Message,
      sendMessageCore mkEndpoint mkErr s nowSend nowResolve relay =
        ({ s with
            messages := s.messages ++ [sentUserMsg s nowSend, assistant],
            input := "", isLoading := false },
         some (sentDescriptor mkEndpoint s nowSend)) ∧
      (sentUserMsg s nowSend).role = .user ∧
      (sentUserMsg s nowSend).content = jsTrim s.input ∧
      assistant.role = .assistant := by
  obtain ⟨content, h⟩ :=
    sendMessageCore_fire mkEndpoint mkErr s nowSend nowResolve relay hbusy
      hinput
  exact ⟨{ id := nowResolve + 1, role := .assistant, content := content,
           timestamp := nowResolve }, h, rfl, rfl, rfl⟩

/-- A successful chat response
`{choices: [{message: {content: "hi"}}]}`. -/
def c2Data : Json :=
  .obj [("choices", .arr [.obj [("message", .obj [("content", .str "hi")])]])]

/-- C2 witness: the theorem at a concrete clean state and mocked relay
success, together with the resulting concrete transcript
`[{user, "hello"}, {assistant, "hi"}]`. -/
theorem C2_send_appends_user_then_assistant_witness :
    (∃ assistant : Message,
      sendMessageCore chatEndpointV2 errContentV2 sampleState 100 200
          (.ok { rtype := "json", data := c2Data }) =
        ({ sampleState with
            messages := sampleState.messages ++
              [sentUserMsg sampleState 100, assistant],
            input := "", isLoading := false },
         some (sentDescriptor chatEndpointV2 sampleState 100)) ∧
      (sentUserMsg sampleState 100).role = .user ∧
      (sentUserMsg sampleState 100).content = jsTrim sampleState.input ∧
      assistant.role = .assistant) ∧
    (sendMessageV2 sampleState 100 200
        (.ok { rtype := "json", data := c2Data })).1.messages.map
      (fun m => (roleString m.role, m.content)) =
      [("user", "hello"), ("assistant", "hi")] :=
  ⟨C2_send_appends_user_then_assistant chatEndpointV2 errContentV2
      sampleState 100 200 (.ok { rtype := "json", data := c2Data }) rfl
      (by decide),
   by decide⟩

/-- C5: every request dispatched by `send` (either variant) is a POST to
the variant's chat-completions endpoint whose body consists exactly of the
configured model name, the prior transcript plus the new user message as
`{role, content}` pairs in transcript order (timestamps stripped), the
fixed temperature 0.7, `max_tokens` 1000, and `stream` false; both
variants dispatch the same body. -/
theorem C5_request_shape (s : AppState) (nowSend nowResolve : Nat)
    (relay : Except RelayError RelayResponse)
    (hbusy : s.isLoading = false) (hinput : jsTrim s.input ≠ "") :
    ∃ d d2 body,
      (sendMessageBasic s nowSend nowResolve relay).2 = some d ∧
      (sendMessageV2 s nowSend nowResolve relay).2 = some d2 ∧
      d.endpoint = chatEndpointBasic s.config.baseUrl ∧
      d2.endpoint = chatEndpointV2 s.config.baseUrl ∧
      d.method = "POST" ∧ d2.method = "POST" ∧
      d.body = some body ∧ d2.body = some body ∧
      body.model = s.config.model ∧
      body.messages = s.messages.map toChatMsg ++
        [{ role := "user", content := jsTrim s.input }] ∧
      body.temperature = "0.7" ∧
      body.max_tokens = 1000 ∧
      body.stream = false := by
  obtain ⟨c1, h1⟩ :=
    sendMessageCore_fire chatEndpointBasic (fun _ msg => errContentBasic msg)
      s nowSend nowResolve relay hbusy hinput
  obtain ⟨c2, h2⟩ :=
    sendMessageCore_fire chatEndpointV2 errContentV2 s nowSend nowResolve
      relay hbusy hinput
  refine ⟨sentDescriptor chatEndpointBasic s nowSend,
          sentDescriptor chatEndpointV2 s nowSend,
          { model := s.config.model,
            messages := s.messages.map toChatMsg ++
              [{ role := "user", content := jsTrim s.input }],
            temperature := "0.7", max_tokens := 1000, stream := false },
          ?_, ?_, rfl, rfl, rfl, rfl, ?_, ?_, rfl, rfl, rfl, rfl, rfl⟩
  · rw [show sendMessageBasic =
      sendMessageCore chatEndpointBasic (fun _ msg => errContentBasic msg)
        from rfl, h1]
  · rw [show sendMessageV2 = sendMessageCore chatEndpointV2 errContentV2
        from rfl, h2]
  · simp [sentDescriptor, sentUserMsg, toChatMsg, roleString]
  · simp [sentDescriptor, sentUserMsg, toChatMsg, roleString]

/-- C5 witness: the shape theorem at a concrete state, plus the concrete
dispatched descriptor. -/
theorem C5_request_shape_witness :
    (∃ d d2 body,
      (sendMessageBasic sampleState 100 200 (.error (.http 500))).2 =
        some d ∧
      (sendMessageV2 sampleState 100 200 (.error (.http 500))).2 =
        some d2 ∧
      d.endpoint = chatEndpointBasic sampleState.config.baseUrl ∧
      d2.endpoint = chatEndpointV2 sampleState.config.baseUrl ∧
      d.method = "POST" ∧ d2.method = "POST" ∧
      d.body = some body ∧ d2.body = some body ∧
      body.model = sampleState.config.model ∧
      body.messages = sampleState.messages.map toChatMsg ++
        [{ role := "user", content := jsTrim sampleState.input }] ∧
      body.temperature = "0.7" ∧
      body.max_tokens = 1000 ∧
      body.stream = false) ∧
    (sendMessageV2 sampleState 100 200 (.error (.http 500))).2 =
      some { endpoint := "http://localhost:1234/v1/chat/completions",
             method := "POST",
             body := some { model := "local-model",
                            messages := [{ role := "user",
                                           content := "hello" }],
                            temperature := "0.7", max_tokens := 1000,
                            stream := false } } :=
  ⟨C5_request_shape sampleState 100 200 (.error (.http 500)) rfl (by decide),
   by decide⟩

/-- C9: the history a firing `send` dispatches is the whole transcript —
every transcript entry, however it was produced (including assistant-role
notices appended by `saveConfig`, `resetConfig`, `testConnection` and
earlier error entries), appears as its `{role, content}` pair in the body
of the next request, followed by the new user message. -/
theorem C9_full_transcript_included (s : AppState) (nowSend nowResolve : Nat)
    (relay : Except RelayError RelayResponse)
    (hbusy : s.isLoading = false) (hinput : jsTrim s.input ≠ "") :
    ∃ d body,
      (sendMessageV2 s nowSend nowResolve relay).2 = some d ∧
      d.body = some body ∧
      body.messages = s.messages.map toChatMsg ++
        [toChatMsg (sentUserMsg s nowSend)] ∧
      ∀ m ∈ s.messages, toChatMsg m ∈ body.messages := by
  obtain ⟨c, h⟩ :=
    sendMessageCore_fire chatEndpointV2 errContentV2 s nowSend nowResolve
      relay hbusy hinput
  refine ⟨sentDescriptor chatEndpointV2 s nowSend,
          { model := s.config.model,
            messages := (s.messages ++ [sentUserMsg s nowSend]).map toChatMsg,
            temperature := "0.7", max_tokens := 1000, stream := false },
          ?_, rfl, by simp, ?_⟩
  · rw [show sendMessageV2 = sendMessageCore chatEndpointV2 errContentV2
        from rfl, h]
  · intro m hm
    simp only [List.mem_map, List.mem_append]
    exact ⟨m, Or.inl hm, rfl⟩

/-- A state reached by saving the configuration (which appends an
assistant-role notice) and then typing `hello`. -/
def c9State : AppState :=
  { saveConfig initialState 50 with input := "hello" }

/-- C9 witness: after a `saveConfig` notice, the next `send` payload
contains the notice pair followed by the user pair. -/
theorem C9_full_transcript_included_witness :
    (∃ d body,
      (sendMessageV2 c9State 100 200 (.error (.http 500))).2 = some d ∧
      d.body = some body ∧
      body.messages = c9State.messages.map toChatMsg ++
        [toChatMsg (sentUserMsg c9State 100)] ∧
      ∀ m ∈ c9State.messages, toChatMsg m ∈ body.messages) ∧
    ((sendMessageV2 c9State 100 200 (.error (.http 500))).2.map
        (fun d => d.body.map (fun b0 => b0.messages))) =
      some (some
        [{ role := "assistant",
           content := "設定を保存しました\n・API URL: http://localhost:1234\n・モデル名: local-model" },
         { role := "user", content := "hello" }]) :=
  ⟨C9_full_transcript_included c9State 100 200 (.error (.http 500)) rfl
      (by decide),
   by decide⟩

/-- C10 (amended): a relay success whose decoded JSON value is falsy
(null, false, 0 or the empty string) takes the error path even though the
HTTP call and parse succeeded: `send` appends the invalid-response error
entry (in every variant) and the settings variants' `testConnection`
appends a connection-error entry. (The `src/src/App.tsx` `testConnection`
also takes the error path on falsy data, but reports it through an alert
and never appends a transcript entry; see the counterexample.) -/
theorem C10_falsy_data_error_path (mkEndpoint : String → String)
    (mkErr : LMStudioConfig → String → String) (s : AppState)
    (nowSend nowResolve now : Nat) (data : Json)
    (hbusy : s.isLoading = false) (hinput : jsTrim s.input ≠ "")
    (hfalsy : truthy data = false) :
    (sendMessageCore mkEndpoint mkErr s nowSend nowResolve
        (.ok { rtype := "json", data := data })).1.messages =
      s.messages ++
        [sentUserMsg s nowSend,
         { id := nowResolve + 1, role := .assistant,
           content := mkErr s.config "無効なレスポンス形式",
           timestamp := nowResolve }] ∧
    (testConnectionV2 s now (.ok { rtype := "json", data := data })).1.messages =
      s.messages ++
        [{ id := now, role := .assistant,
           content := connErrContent s.config.baseUrl "無効なレスポンス",
           timestamp := now }] := by
  constructor
  · simp only [sendMessageCore]
    rw [if_neg (by simp [hbusy, hinput])]
    simp [hfalsy, sentUserMsg]
  · simp only [testConnectionV2]
    simp [hfalsy]

/-- C10 witness: the falsy-data theorem at `data = null`, plus the concrete
error transcripts it produces. -/
theorem C10_falsy_data_error_path_witness :
    ((sendMessageCore chatEndpointV2 errContentV2 sampleState 100 200
        (.ok { rtype := "json", data := .null })).1.messages =
      sampleState.messages ++
        [sentUserMsg sampleState 100,
         { id := 201, role := .assistant,
           content := errContentV2 sampleState.config "無効なレスポンス形式",
           timestamp := 200 }] ∧
    (testConnectionV2 sampleState 300
        (.ok { rtype := "json", data := .null })).1.messages =
      sampleState.messages ++
        [{ id := 300, role := .assistant,
           content := connErrContent sampleState.config.baseUrl
             "無効なレスポンス",
           timestamp := 300 }]) ∧
    (sendMessageV2 sampleState 100 200
        (.ok { rtype := "json", data := .num 0 })).1.messages.map
      (·.content) =
      ["hello",
       "エラーが発生しました: 無効なレスポンス形式\n\n設定を確認してください：\n・API URL: http://localhost:1234\n・モデル名: local-model"] :=
  ⟨C10_falsy_data_error_path chatEndpointV2 errContentV2 sampleState 100 200
      300 .null rfl (by decide) rfl,
   by decide⟩

/-- C10 counterexample: in the `src/src/App.tsx` variant, `testConnection`
on a falsy decoded value (`null`, which is not truthy) appends no
transcript entry at all — the failure is surfaced through an alert — so
the claim's "testConnection ... appends an error-style assistant entry" is
false for that cited variant. -/
theorem C10_counterexample :
    truthy .null = false ∧
    (testConnectionBasic sampleState 300
        (.ok { rtype := "json", data := .null })).1.messages =
      sampleState.messages ∧
    (testConnectionBasic sampleState 300
        (.ok { rtype := "json", data := .null })).1.messages.length = 0 := by
  decide

/-- C7 (amended): in the settings variants, a `send` whose relay call
rejects with a transport failure leaves the transcript as the user entry
followed by an assistant entry whose content contains the configured base
URL and an error indicator, with the busy flag clear afterwards. (The
`src/src/App.tsx` variant's error entry does not embed the base URL; see
the counterexample.) -/
theorem C7_transport_error_entry (s : AppState)
    (nowSend nowResolve status : Nat)
    (hbusy : s.isLoading = false) (hinput : jsTrim s.input ≠ "") :
    ∃ c : String,
      (sendMessageV2 s nowSend nowResolve
          (.error (.http status))).1.messages =
        s.messages ++
          [sentUserMsg s nowSend,
           { id := nowResolve + 1, role := .assistant, content := c,
             timestamp := nowResolve }] ∧
      containsStr c s.config.baseUrl ∧
      containsStr c "エラー" ∧
      (sendMessageV2 s nowSend nowResolve
          (.error (.http status))).1.isLoading = false := by
  refine ⟨errContentV2 s.config (errorMessage (.http status)), ?_, ?_, ?_, ?_⟩
  · unfold sendMessageV2 sendMessageCore
    rw [if_neg (by simp [hbusy, hinput])]
    simp [sentUserMsg]
  · unfold errContentV2
    exact containsStr_appendLeft _ _ _ (containsStr_appendLeft _ _ _
      (containsStr_append_self _ _))
  · unfold errContentV2
    refine containsStr_appendLeft _ _ _ (containsStr_appendLeft _ _ _
      (containsStr_appendLeft _ _ _ (containsStr_appendLeft _ _ _
        (containsStr_appendLeft _ _ _ ?_))))
    exact (by decide : containsStr "エラーが発生しました: " "エラー")
  · unfold sendMessageV2 sendMessageCore
    rw [if_neg (by simp [hbusy, hinput])]

/-- C7 witness: the theorem at a concrete state and a 500 rejection. -/
theorem C7_transport_error_entry_witness :
    ∃ c : String,
      (sendMessageV2 sampleState 100 200 (.error (.http 500))).1.messages =
        sampleState.messages ++
          [sentUserMsg sampleState 100,
           { id := 201, role := .assistant, content := c,
             timestamp := 200 }] ∧
      containsStr c sampleState.config.baseUrl ∧
      containsStr c "エラー" ∧
      (sendMessageV2 sampleState 100 200
          (.error (.http 500))).1.isLoading = false :=
  C7_transport_error_entry sampleState 100 200 500 rfl (by decide)

/-- C7 counterexample: in the `src/src/App.tsx` variant the error entry
after a 500 rejection is exactly the error indicator plus the relay's
message, and it does not contain the configured base URL. -/
theorem C7_counterexample :
    (sendMessageBasic sampleState 100 200
        (.error (.http 500))).1.messages.map (·.content) =
      ["hello", "エラーが発生しました: HTTP error! status: 500"] ∧
    ¬ containsStr "エラーが発生しました: HTTP error! status: 500"
        sampleState.config.baseUrl ∧
    (sendMessageBasic sampleState 100 200
        (.error (.http 500))).1.isLoading = false := by
  decide

end LMStudioChat

namespace LMStudioChat

/-! Transcript-id bookkeeping for the trace theorem: how each operation
changes the id list. -/

theorem msgIds_typeInput (s : AppState) (t : String) :
    msgIds (applyOp s (.typeInput t)) = msgIds s := rfl

theorem msgIds_clear (s : AppState) : msgIds (applyOp s .clear) = [] := rfl

theorem msgIds_save (s : AppState) (n : Nat) :
    msgIds (applyOp s (.save n)) = msgIds s ++ [n] := by
  simp [applyOp, saveConfig, msgIds]

theorem msgIds_reset (s : AppState) (n : Nat) :
    msgIds (applyOp s (.reset n)) = msgIds s ++ [n] := by
  simp [applyOp, resetConfig, msgIds]

theorem msgIds_test (s : AppState) (n : Nat)
    (relay : Except RelayError RelayResponse) :
    msgIds (applyOp s (.test n relay)) = msgIds s ++ [n] := by
  rcases relay with e | resp
  · simp [applyOp, testConnectionV2, msgIds]
  · by_cases hj : resp.rtype = "json" ∧ truthy resp.data <;>
      simp [applyOp, testConnectionV2, hj, msgIds]

theorem msgIds_send (s : AppState) (a b : Nat)
    (relay : Except RelayError RelayResponse) :
    msgIds (applyOp s (.send a b relay)) = msgIds s ∨
    msgIds (applyOp s (.send a b relay)) = msgIds s ++ [a, b + 1] := by
  by_cases hg : jsTrim s.input = "" ∨ s.isLoading = true
  · left
    show msgIds (sendMessageCore chatEndpointV2 errContentV2 s a b relay).1 = _
    simp only [sendMessageCore]
    rw [if_pos hg]
  · right
    have hbusy : s.isLoading = false := by
      cases hb : s.isLoading
      · rfl
      · exact absurd (Or.inr hb) hg
    have hinput : jsTrim s.input ≠ "" := fun h => hg (Or.inl h)
    obtain ⟨c, h⟩ :=
      sendMessageCore_fire chatEndpointV2 errContentV2 s a b relay hbusy
        hinput
    show msgIds (sendMessageCore chatEndpointV2 errContentV2 s a b relay).1 = _
    rw [h]
    simp [msgIds, sentUserMsg]

/-- Running a trace from a transcript with strictly increasing ids, all of
which lie below every upcoming clock reading, keeps the id list strictly
increasing, provided consecutive clock readings are at least 2 apart. -/
theorem runOps_ids_strictMono (ops : List Op) :
    ∀ s : AppState, (msgIds s).Pairwise (· < ·) →
      (∀ i ∈ msgIds s, ∀ c ∈ traceClocks ops, i < c) →
      (traceClocks ops).Pairwise (fun a b => a + 2 ≤ b) →
      (msgIds (runOps s ops)).Pairwise (· < ·) := by
  induction ops with
  | nil => exact fun s h _ _ => h
  | cons op rest ih =>
    intro s hpw hbound hpw2
    have hsplit : traceClocks (op :: rest) = opClocks op ++ traceClocks rest :=
      rfl
    rw [hsplit, List.pairwise_append] at hpw2
    obtain ⟨hopPw, hrestPw, hcross⟩ := hpw2
    rw [hsplit] at hbound
    have hboundOp : ∀ i ∈ msgIds s, ∀ c ∈ opClocks op, i < c :=
      fun i hi c hc => hbound i hi c (List.mem_append_left _ hc)
    have hboundRest : ∀ i ∈ msgIds s, ∀ c ∈ traceClocks rest, i < c :=
      fun i hi c hc => hbound i hi c (List.mem_append_right _ hc)
    show (msgIds (runOps (applyOp s op) rest)).Pairwise (· < ·)
    cases op with
    | typeInput t =>
      exact ih _ (by rw [msgIds_typeInput]; exact hpw)
        (by rw [msgIds_typeInput]; exact hboundRest) hrestPw
    | clear =>
      exact ih _ (by rw [msgIds_clear]; exact List.Pairwise.nil)
        (by rw [msgIds_clear]; simp) hrestPw
    | save n =>
      apply ih _ ?_ ?_ hrestPw
      · rw [msgIds_save, List.pairwise_append]
        refine ⟨hpw, by simp, ?_⟩
        intro i hi c hc
        rw [List.mem_singleton] at hc
        rw [hc]
        exact hboundOp i hi n (by simp [opClocks])
      · rw [msgIds_save]
        intro i hi c hc
        rw [List.mem_append] at hi
        rcases hi with hi | hi
        · exact hboundRest i hi c hc
        · rw [List.mem_singleton] at hi
          rw [hi]
          have := hcross n (by simp [opClocks]) c hc
          omega
    | reset n =>
      apply ih _ ?_ ?_ hrestPw
      · rw [msgIds_reset, List.pairwise_append]
        refine ⟨hpw, by simp, ?_⟩
        intro i hi c hc
        rw [List.mem_singleton] at hc
        rw [hc]
        exact hboundOp i hi n (by simp [opClocks])
      · rw [msgIds_reset]
        intro i hi c hc
        rw [List.mem_append] at hi
        rcases hi with hi | hi
        · exact hboundRest i hi c hc
        · rw [List.mem_singleton] at hi
          rw [hi]
          have := hcross n (by simp [opClocks]) c hc
          omega
    | test n relay =>
      apply ih _ ?_ ?_ hrestPw
      · rw [msgIds_test, List.pairwise_append]
        refine ⟨hpw, by simp, ?_⟩
        intro i hi c hc
        rw [List.mem_singleton] at hc
        rw [hc]
        exact hboundOp i hi n (by simp [opClocks])
      · rw [msgIds_test]
        intro i hi c hc
        rw [List.mem_append] at hi
        rcases hi with hi | hi
        · exact hboundRest i hi c hc
        · rw [List.mem_singleton] at hi
          rw [hi]
          have := hcross n (by simp [opClocks]) c hc
          omega
    | send a b relay =>
      have hab : a + 2 ≤ b := by
        have h := hopPw
        rw [show opClocks (.send a b relay) = [a, b] from rfl,
          List.pairwise_cons] at h
        exact h.1 b (List.mem_singleton.mpr rfl)
      rcases msgIds_send s a b relay with heq | heq
      · exact ih _ (by rw [heq]; exact hpw) (by rw [heq]; exact hboundRest)
          hrestPw
      · apply ih _ ?_ ?_ hrestPw
        · rw [heq, List.pairwise_append]
          refine ⟨hpw, ?_, ?_⟩
          · rw [List.pairwise_cons]
            refine ⟨?_, by simp⟩
            intro x hx
            rw [List.mem_singleton] at hx
            subst hx
            omega
          · intro i hi c hc
            rw [List.mem_cons, List.mem_singleton] at hc
            rcases hc with hc | hc <;> rw [hc]
            · exact hboundOp i hi a (by simp [opClocks])
            · have := hboundOp i hi b (by simp [opClocks])
              omega
        · rw [heq]
          intro i hi c hc
          rw [List.mem_append, List.mem_cons, List.mem_singleton] at hi
          rcases hi with hi | hi | hi
          · exact hboundRest i hi c hc
          · rw [hi]
            have := hcross a (by simp [opClocks]) c hc
            omega
          · rw [hi]
            have := hcross b (by simp [opClocks]) c hc
            omega

/-- C8 (amended): ids are the creation-time clock readings (response
entries get reading + 1). Across every sequence of operations whose
successive clock readings advance by at least 2 milliseconds, all ids ever
present in the transcript are pairwise distinct and strictly increasing in
creation order. (With a stalled clock two entries share an id; see the
counterexample.) -/
theorem C8_ids_unique_and_ordered (ops : List Op)
    (h : List.Chain' (fun a b => a + 2 ≤ b) (traceClocks ops)) :
    (msgIds (runOps initialState ops)).Pairwise (· < ·) ∧
    (msgIds (runOps initialState ops)).Nodup := by
  haveI : IsTrans Nat (fun a b => a + 2 ≤ b) :=
    ⟨fun a b c hab hbc => by omega⟩
  have hp := List.chain'_iff_pairwise.mp h
  have hmono := runOps_ids_strictMono ops initialState
    (by simp [msgIds, initialState]) (by simp [msgIds, initialState]) hp
  exact ⟨hmono, hmono.imp Nat.ne_of_lt⟩

/-- A trace exercising a save notice, a full send round trip, and a failed
connection test, with clock readings 2 ms apart. -/
def c8Trace : List Op :=
  [.save 100, .typeInput "hi", .send 102 104 (.ok { rtype := "json", data := c2Data }),
   .test 106 (.error (.http 500))]

/-- C8 witness: the amended theorem on a concrete well-spaced trace, whose
ids come out as `[100, 102, 105, 106]`. -/
theorem C8_ids_unique_and_ordered_witness :
    List.Chain' (fun a b => a + 2 ≤ b) (traceClocks c8Trace) ∧
    ((msgIds (runOps initialState c8Trace)).Pairwise (· < ·) ∧
     (msgIds (runOps initialState c8Trace)).Nodup) ∧
    msgIds (runOps initialState c8Trace) = [100, 102, 105, 106] := by
  have hc : List.Chain' (fun a b => a + 2 ≤ b) (traceClocks c8Trace) := by
    rw [show traceClocks c8Trace = [100, 102, 104, 106] from by decide]
    simp [List.chain'_cons]
  exact ⟨hc, C8_ids_unique_and_ordered c8Trace hc, by decide⟩

/-- C8 counterexample: two operations at the same clock reading create two
distinct transcript entries with the same id — ids are not unique as the
claim states. -/
theorem C8_counterexample :
    msgIds (resetConfig (saveConfig initialState 100) 100) = [100, 100] ∧
    (resetConfig (saveConfig initialState 100) 100).messages.Nodup ∧
    ¬ (msgIds (resetConfig (saveConfig initialState 100) 100)).Nodup := by
  decide

end LMStudioChat
